import Mathlib

/-!
Verification development for the Connect-Dev escrow system.

The development shallowly embeds three parts of the repository:

* `Escrow`: the on-chain ledger `src/contracts/VideoCallEscrow.sol`.
  Addresses and 32-byte call identifiers are modelled as `Nat` (with `0`
  playing the role of the null address), the `calls` mapping as an
  association list with the Solidity default-value semantics, and each
  external function as a total function returning `Except Err State`.
  EVM revert semantics are captured by `exec`, which keeps the pre-state
  whenever a function returns an error.  The outcome of the low-level
  value transfer in `completeCall` is an explicit boolean input.
* `Web3Service`: the confirmation loop of `completeCall` in
  `src/services/web3Service.ts` (receipt polling with a 30-attempt
  ceiling and the try/catch structure of the loop body).
* `Coordinator`: the session-end and countdown logic of
  `src/pages/VideoCall.tsx` (the `handleCallEnd` guard, the
  developer-side `requiresPayment` snapshot listener, and the two timer
  initialisation paths).
-/

namespace Escrow

/-- The `Call` struct of `VideoCallEscrow.sol`. -/
structure Call where
  client : Nat
  developer : Nat
  amount : Nat
  duration : Nat
  startTime : Nat
  isActive : Bool
  isCompleted : Bool
  isPaid : Bool
deriving DecidableEq, Repr

/-- Solidity default value of a mapping entry: the all-zero struct. -/
def emptyCall : Call :=
  { client := 0, developer := 0, amount := 0, duration := 0, startTime := 0,
    isActive := false, isCompleted := false, isPaid := false }

/-- The revert taxonomy of `VideoCallEscrow.sol`: the custom errors plus the
three plain-string reverts of `completeCall`. -/
inductive Err where
  | invalidAmount
  | invalidDuration
  | invalidDeveloper
  | selfBookingNotAllowed
  | callNotFound
  | callAlreadyExists
  | callAlreadyStarted
  | callAlreadyCompleted
  | unauthorized
  | paymentAlreadyReleased
  | noPaymentAmount
  | insufficientBalance
  | paymentFailed
deriving DecidableEq, Repr

/-- The non-diagnostic events of `VideoCallEscrow.sol`. -/
inductive Event where
  | callCreated (callId client developer amount duration timestamp : Nat)
  | callStarted (callId startTime : Nat)
  | callCompleted (callId endTime : Nat)
  | paymentReleased (callId developer amount : Nat)
deriving DecidableEq, Repr

/-- Contract state: the `calls` mapping (as an association list), the
contract's native-token balance, and the emitted event log. -/
structure State where
  calls : List (Nat × Call)
  balance : Nat
  events : List Event
deriving DecidableEq, Repr

/-- The state of a freshly deployed contract. -/
def initState : State := { calls := [], balance := 0, events := [] }

/-- Mapping read with the Solidity default: a missing key yields the
all-zero struct. -/
def lookupCall : List (Nat × Call) → Nat → Call
  | [], _ => emptyCall
  | (k, c) :: rest, id => if k = id then c else lookupCall rest id

/-- `calls[callId]` of the contract. -/
def getCall (s : State) (callId : Nat) : Call :=
  lookupCall s.calls callId

/-- Mapping write: replace the first binding of the key, or append one. -/
def setEntry : List (Nat × Call) → Nat → Call → List (Nat × Call)
  | [], id, c => [(id, c)]
  | (k, c0) :: rest, id, c =>
      if k = id then (id, c) :: rest else (k, c0) :: setEntry rest id c

/-- `createCall(bytes32 callId, address developer, uint256 duration)`,
`payable` with `value` attached; `now` is `block.timestamp`.  Mirrors
`VideoCallEscrow.sol` lines 71-117: the four input-validation reverts, the
existence guard (revert unless the existing record is completed and not
paid), then storage of a fresh record and the `CallCreated` event.  On
success the attached value is added to the contract balance. -/
def createCall (s : State) (sender value callId developer duration now : Nat) :
    Except Err State :=
  if value = 0 then .error .invalidAmount
  else if duration = 0 then .error .invalidDuration
  else if developer = 0 then .error .invalidDeveloper
  else if sender = developer then .error .selfBookingNotAllowed
  else if (getCall s callId).client ≠ 0 ∧
      ((getCall s callId).isCompleted = false ∨ (getCall s callId).isPaid = true) then
    .error .callAlreadyExists
  else
    .ok { calls := setEntry s.calls callId
            { client := sender, developer := developer, amount := value,
              duration := duration, startTime := 0, isActive := false,
              isCompleted := false, isPaid := false },
          balance := s.balance + value,
          events := s.events ++ [.callCreated callId sender developer value duration now] }

/-- `startCall(bytes32 callId)` (`VideoCallEscrow.sol` lines 119-135); `now`
is `block.timestamp`.  The `callExists` modifier, then the two lifecycle
guards, then the effect.  `sender` is `msg.sender`; the source never reads
it, and the parameter is kept to state that fact. -/
def startCall (s : State) (sender callId now : Nat) : Except Err State :=
  if (getCall s callId).client = 0 then .error .callNotFound
  else if (getCall s callId).isActive then .error .callAlreadyStarted
  else if (getCall s callId).isCompleted then .error .callAlreadyCompleted
  else
    .ok { calls := setEntry s.calls callId
            { getCall s callId with isActive := true, startTime := now },
          balance := s.balance,
          events := s.events ++ [.callStarted callId now] }

/-- `completeCall(bytes32 callId)` (`VideoCallEscrow.sol` lines 137-181);
`now` is `block.timestamp` and `transferOk` is the success flag of the
low-level value transfer to the developer.  The `callExists` and
`onlyDeveloper` modifiers, the four precondition reverts, then the state
flip (mark completed and paid, zero the amount), the transfer — whose
failure reverts the whole call with `PaymentFailed` — and the two events. -/
def completeCall (s : State) (sender callId now : Nat) (transferOk : Bool) :
    Except Err State :=
  if (getCall s callId).client = 0 then .error .callNotFound
  else if (getCall s callId).developer ≠ sender then .error .unauthorized
  else if (getCall s callId).isCompleted then .error .callAlreadyCompleted
  else if (getCall s callId).isPaid then .error .paymentAlreadyReleased
  else if (getCall s callId).amount = 0 then .error .noPaymentAmount
  else if s.balance < (getCall s callId).amount then .error .insufficientBalance
  else if transferOk then
    .ok { calls := setEntry s.calls callId
            { getCall s callId with isCompleted := true, isPaid := true, amount := 0 },
          balance := s.balance - (getCall s callId).amount,
          events := s.events ++
            [.callCompleted callId now,
             .paymentReleased callId (getCall s callId).developer (getCall s callId).amount] }
  else .error .paymentFailed

/-- `getCallDetails(bytes32 callId)` (`VideoCallEscrow.sol` lines 183-208). -/
def getCallDetails (s : State) (callId : Nat) : Except Err Call :=
  if (getCall s callId).client = 0 then .error .callNotFound
  else .ok (getCall s callId)

/-- `doesCallExist(bytes32 callId)` (`VideoCallEscrow.sol` lines 210-212). -/
def doesCallExist (s : State) (callId : Nat) : Bool :=
  (getCall s callId).client != 0

/-- One external transaction against the ledger. -/
inductive Op where
  | create (sender value callId developer duration now : Nat)
  | start (sender callId now : Nat)
  | complete (sender callId now : Nat) (transferOk : Bool)
deriving DecidableEq, Repr

/-- Dispatch one transaction. -/
def step (s : State) : Op → Except Err State
  | .create sender value callId developer duration now =>
      createCall s sender value callId developer duration now
  | .start sender callId now => startCall s sender callId now
  | .complete sender callId now transferOk => completeCall s sender callId now transferOk

/-- EVM execution of one transaction: a revert leaves the state unchanged. -/
def exec (s : State) (op : Op) : State :=
  match step s op with
  | .ok s' => s'
  | .error _ => s

/-- Execute a sequence of transactions. -/
def run (s : State) : List Op → State
  | [] => s
  | op :: ops => run (exec s op) ops

/-- Whether a transaction is a `completeCall` on the given id. -/
def isCompleteOn (op : Op) (callId : Nat) : Bool :=
  match op with
  | .complete _ id _ _ => id == callId
  | _ => false

/-- Whether a transaction succeeds (does not revert) in the given state. -/
def succeeds (s : State) (op : Op) : Bool :=
  match step s op with
  | .ok _ => true
  | .error _ => false

/-- Number of successful `completeCall` transactions on `callId` along a
transaction sequence started in `s`. -/
def countPayouts (s : State) (ops : List Op) (callId : Nat) : Nat :=
  match ops with
  | [] => 0
  | op :: rest =>
      (if isCompleteOn op callId && succeeds s op then 1 else 0) +
        countPayouts (exec s op) rest callId

end Escrow

namespace Web3Service

/-- A transaction receipt as inspected by the confirmation loop of
`Web3Service.completeCall` (`src/services/web3Service.ts` lines 596-637):
only its `status` field is consulted. -/
structure Receipt where
  status : Bool
deriving DecidableEq, Repr

/-- Outcome of one execution of the `try` block of the confirmation loop
(lines 602-629) once `getTransactionReceipt` has answered. -/
inductive IterOutcome where
  | breakConfirmed
  | caughtError
  | noReceipt
deriving DecidableEq, Repr

/-- The `try` block of one loop iteration (lines 602-626), given the result
of `getTransactionReceipt` and the `isPaid` field subsequently read back via
`getCallDetails`.  A receipt whose `status` is falsy triggers
`throw new Error('Transaction failed')`; a successful receipt whose re-read
record has `isPaid` false triggers
`throw new Error('Payment not confirmed after transaction')`; otherwise the
body reaches `break`.  Both throws land in the inner
`catch (error) { console.error(...) }` of line 627, which only logs — hence
the outcome `caughtError` rather than a propagated failure.  A `none` poll
result (receipt not yet available, or `getTransactionReceipt` itself
rejecting) leaves `receipt` null. -/
def loopIter (pollResult : Option Receipt) (isPaidRead : Bool) : IterOutcome :=
  match pollResult with
  | none => .noReceipt
  | some r =>
      if r.status = false then .caughtError
      else if isPaidRead = false then .caughtError
      else .breakConfirmed

/-- The observable result of `Web3Service.completeCall` after the
transaction has been submitted: either the function returns the transaction
hash (reported success) or it throws
`'Transaction not confirmed after 30 seconds'`. -/
inductive ConfirmResult where
  | returnedHash
  | notConfirmedError
deriving DecidableEq, Repr

/-- The `while (!receipt && attempts < maxAttempts)` loop (lines 601-632)
followed by the `if (!receipt) throw` check and the final `return txHash`
(lines 634-638).  `fuel` is `maxAttempts - attempts`; `receipt` is the
mutable `receipt` variable.  `polls attempt` is the answer of
`getTransactionReceipt` on that attempt and `isPaidReads attempt` the
`isPaid` value read back on that attempt.  When the body throws and the
exception is caught, `receipt` has already been assigned, so the loop
condition fails on the next check and the function falls through to
`return txHash`. -/
def confirmAux (polls : Nat → Option Receipt) (isPaidReads : Nat → Bool) :
    Nat → Nat → Option Receipt → ConfirmResult
  | 0, _, receipt =>
      match receipt with
      | none => .notConfirmedError
      | some _ => .returnedHash
  | fuel + 1, attempt, receipt =>
      match receipt with
      | some _ => .returnedHash
      | none =>
          match loopIter (polls attempt) (isPaidReads attempt) with
          | .breakConfirmed => .returnedHash
          | .caughtError => confirmAux polls isPaidReads fuel (attempt + 1) (polls attempt)
          | .noReceipt => confirmAux polls isPaidReads fuel (attempt + 1) none

/-- `const maxAttempts = 30` (line 599). -/
def maxAttempts : Nat := 30

/-- The whole confirmation phase of `Web3Service.completeCall`:
`receipt = null; attempts = 0`, then the polling loop. -/
def completeCallConfirm (polls : Nat → Option Receipt) (isPaidReads : Nat → Bool) :
    ConfirmResult :=
  confirmAux polls isPaidReads maxAttempts 0 none

end Web3Service

namespace Coordinator

/-- The state relevant to session-end processing on the developer's client
(`src/pages/VideoCall.tsx`): the `isCallEnding` React state, the
`requiresPayment`/`paymentReleased` fields of the Firestore call document,
the number of `completeCall` submissions currently awaiting resolution, and
the total number of `completeCall` submissions made. -/
structure SessionState where
  isCallEnding : Bool
  requiresPayment : Bool
  paymentReleased : Bool
  inFlight : Nat
  submissions : Nat
deriving DecidableEq, Repr

/-- Initial session state on the developer's client. -/
def initSession : SessionState :=
  { isCallEnding := false, requiresPayment := false, paymentReleased := false,
    inFlight := 0, submissions := 0 }

/-- Session-end triggers observable on the developer's client. -/
inductive Trigger where
  | devEndCall
  | clientEndWrite
  | snapshotFire
  | resolveSuccess
  | resolveFailure
deriving DecidableEq, Repr

/-- One trigger of the developer-side session-end logic of
`VideoCall.tsx`.

* `devEndCall` — `handleCallEnd` runs on the developer's client (countdown
  reaching zero or a manual end, lines 109-166): it returns immediately if
  `isCallEnding` is set, otherwise sets `isCallEnding`, writes
  `requiresPayment: true` to the call document and invokes `processPayment`,
  which submits `web3Service.completeCall` and awaits it.
* `clientEndWrite` — the client's `handleCallEnd` writes
  `requiresPayment: true` to the shared call document (lines 124-130); no
  payment is submitted on the client side.
* `snapshotFire` — the developer-side `requiresPayment` listener fires
  (lines 217-223): if `data.requiresPayment && !data.paymentReleased &&
  !isCallEnding` it invokes `processPayment` directly; note that neither the
  listener nor `processPayment` sets `isCallEnding` or any other in-flight
  marker before awaiting the transaction.
* `resolveSuccess` — an in-flight `completeCall` resolves; `processPayment`
  writes `paymentReleased: true, requiresPayment: false` (lines 183-188).
* `resolveFailure` — an in-flight `completeCall` rejects; the error path
  records the error and calls `setIsCallEnding(false)` (lines 193-205). -/
def handleTrigger (s : SessionState) : Trigger → SessionState
  | .devEndCall =>
      if s.isCallEnding then s
      else { s with isCallEnding := true, requiresPayment := true,
                    submissions := s.submissions + 1, inFlight := s.inFlight + 1 }
  | .clientEndWrite => { s with requiresPayment := true }
  | .snapshotFire =>
      if s.requiresPayment && !s.paymentReleased && !s.isCallEnding then
        { s with submissions := s.submissions + 1, inFlight := s.inFlight + 1 }
      else s
  | .resolveSuccess =>
      if s.inFlight = 0 then s
      else { s with inFlight := s.inFlight - 1, paymentReleased := true,
                    requiresPayment := false }
  | .resolveFailure =>
      if s.inFlight = 0 then s
      else { s with inFlight := s.inFlight - 1, isCallEnding := false }

/-- Process a sequence of triggers. -/
def runTriggers (s : SessionState) : List Trigger → SessionState
  | [] => s
  | t :: ts => runTriggers (handleTrigger s t) ts

/-- What a timer-initialisation code path does. -/
inductive TimerAction where
  | noAction
  | startTimer (remainingSeconds : Int)
  | endCall
deriving DecidableEq, Repr

/-- The `fetchCallData` snapshot handler (`VideoCall.tsx` lines 252-278):
if the call document carries a `startTime` and the timer is not yet
initialised, obtain a timestamp from `getServerTimestamp()` — a round trip
through a temporary Firestore document carrying `serverTimestamp()`, which
yields the store's server-assigned time, falling back to `Date.now()` (the
local clock) if the round trip fails (lines 228-244) — then compute
`elapsedSeconds = Math.floor((serverTimestamp - startTime) / 1000)` and
`remainingSeconds = duration * 60 - elapsedSeconds`, starting the countdown
if positive and ending the call otherwise.  `serverTs = none` models the
fallback case. -/
def fetchSnapshotTimer (startTime : Option Int) (duration : Int)
    (callInitialized : Bool) (serverTs : Option Int) (localNow : Int) : TimerAction :=
  match startTime with
  | none => .noAction
  | some st =>
      if callInitialized then .noAction
      else
        let ts : Int :=
          match serverTs with
          | some t => t
          | none => localNow
        let elapsedSeconds : Int := (ts - st).fdiv 1000
        let remainingSeconds : Int := duration * 60 - elapsedSeconds
        if 0 < remainingSeconds then .startTimer remainingSeconds else .endCall

/-- The timer initialisation of `initializeCall` (`VideoCall.tsx` lines
349-365; the listener at lines 373-394 is the same computation): when the
session status is `'active'`, the timer is not yet initialised and the
document carries `startTime` and a nonzero `duration`, compute
`elapsedSeconds = Math.floor((currentTime - startTime) / 1000)` where
`currentTime = new Date().getTime()` — the local client clock. -/
def initCallTimer (status : String) (startTime : Option Int) (duration : Int)
    (callInitialized : Bool) (localNow : Int) : TimerAction :=
  if status = "active" ∧ callInitialized = false then
    match startTime with
    | none => .noAction
    | some st =>
        if duration = 0 then .noAction
        else
          let elapsedSeconds : Int := (localNow - st).fdiv 1000
          let remainingSeconds : Int := duration * 60 - elapsedSeconds
          if 0 < remainingSeconds then .startTimer remainingSeconds else .endCall
  else .noAction

end Coordinator

namespace Escrow

theorem lookupCall_setEntry_self (l : List (Nat × Call)) (id : Nat) (c : Call) :
    lookupCall (setEntry l id c) id = c := by
  induction l with
  | nil => simp [setEntry, lookupCall]
  | cons p rest ih =>
      obtain ⟨k, c0⟩ := p
      by_cases h : k = id
      · simp [setEntry, lookupCall, h]
      · simp [setEntry, lookupCall, h, ih]

theorem lookupCall_setEntry_ne (l : List (Nat × Call)) (id : Nat) (c : Call)
    (id' : Nat) (h : id' ≠ id) : lookupCall (setEntry l id c) id' = lookupCall l id' := by
  induction l with
  | nil => simp [setEntry, lookupCall, if_neg (Ne.symm h)]
  | cons p rest ih =>
      obtain ⟨k, c0⟩ := p
      by_cases hk : k = id
      · subst hk
        simp [setEntry, lookupCall, if_neg (Ne.symm h)]
      · simp only [setEntry, if_neg hk, lookupCall]
        by_cases hk' : k = id'
        · simp [hk']
        · simp [hk', ih]

/-- The call id targeted by a transaction. -/
def Op.targetId : Op → Nat
  | .create _ _ id _ _ _ => id
  | .start _ id _ => id
  | .complete _ id _ _ => id

theorem getCall_setEntry (s : State) (id : Nat) (c : Call) (b : Nat)
    (e : List Event) (id' : Nat) :
    getCall { calls := setEntry s.calls id c, balance := b, events := e } id' =
      if id' = id then c else getCall s id' := by
  by_cases h : id' = id
  · subst h
    simp [getCall, lookupCall_setEntry_self]
  · simp [getCall, h, lookupCall_setEntry_ne _ _ _ _ h]

theorem createCall_ok_inv {s : State} {sender value callId developer duration now : Nat}
    {s' : State} (h : createCall s sender value callId developer duration now = .ok s') :
    value ≠ 0 ∧ duration ≠ 0 ∧ developer ≠ 0 ∧ sender ≠ developer ∧
    ¬((getCall s callId).client ≠ 0 ∧
      ((getCall s callId).isCompleted = false ∨ (getCall s callId).isPaid = true)) ∧
    s' = State.mk
          (setEntry s.calls callId (Call.mk sender developer value duration 0 false false false))
          (s.balance + value)
          (s.events ++ [.callCreated callId sender developer value duration now]) := by
  unfold createCall at h
  split_ifs at h with h1 h2 h3 h4 h5
  injection h with h
  exact ⟨h1, h2, h3, h4, h5, h.symm⟩

theorem startCall_ok_inv {s : State} {sender callId now : Nat} {s' : State}
    (h : startCall s sender callId now = .ok s') :
    (getCall s callId).client ≠ 0 ∧ (getCall s callId).isActive = false ∧
    (getCall s callId).isCompleted = false ∧
    s' = State.mk
          (setEntry s.calls callId
            (Call.mk (getCall s callId).client (getCall s callId).developer
              (getCall s callId).amount (getCall s callId).duration now true
              (getCall s callId).isCompleted (getCall s callId).isPaid))
          s.balance
          (s.events ++ [.callStarted callId now]) := by
  unfold startCall at h
  split_ifs at h with h1 h2 h3
  injection h with h
  refine ⟨h1, ?_, ?_, h.symm⟩
  · simpa using h2
  · simpa using h3

theorem completeCall_ok_inv {s : State} {sender callId now : Nat} {transferOk : Bool}
    {s' : State} (h : completeCall s sender callId now transferOk = .ok s') :
    (getCall s callId).client ≠ 0 ∧ (getCall s callId).developer = sender ∧
    (getCall s callId).isCompleted = false ∧ (getCall s callId).isPaid = false ∧
    (getCall s callId).amount ≠ 0 ∧ (getCall s callId).amount ≤ s.balance ∧
    transferOk = true ∧
    s' = State.mk
          (setEntry s.calls callId
            (Call.mk (getCall s callId).client (getCall s callId).developer 0
              (getCall s callId).duration (getCall s callId).startTime
              (getCall s callId).isActive true true))
          (s.balance - (getCall s callId).amount)
          (s.events ++
            [.callCompleted callId now,
             .paymentReleased callId (getCall s callId).developer (getCall s callId).amount]) := by
  unfold completeCall at h
  split_ifs at h with h1 h2 h3 h4 h5 h6 h7
  injection h with h
  refine ⟨h1, ?_, ?_, ?_, h5, ?_, h7, h.symm⟩
  · simpa using h2
  · simpa using h3
  · simpa using h4
  · omega

theorem createCall_error_of_paid {s : State} (sender value callId developer duration now : Nat)
    (hc : (getCall s callId).client ≠ 0) (hp : (getCall s callId).isPaid = true) :
    ∃ e, createCall s sender value callId developer duration now = .error e := by
  unfold createCall
  split_ifs with h1 h2 h3 h4 h5
  all_goals first
    | exact ⟨_, rfl⟩
    | exact absurd ⟨hc, Or.inr hp⟩ h5

theorem startCall_error_of_completed {s : State} (sender callId now : Nat)
    (hp : (getCall s callId).isCompleted = true) :
    ∃ e, startCall s sender callId now = .error e := by
  unfold startCall
  split_ifs
  all_goals exact ⟨_, rfl⟩

theorem completeCall_error_of_completed {s : State} (sender callId now : Nat)
    (transferOk : Bool) (hp : (getCall s callId).isCompleted = true) :
    ∃ e, completeCall s sender callId now transferOk = .error e := by
  unfold completeCall
  split_ifs
  all_goals exact ⟨_, rfl⟩

theorem exec_eq_of_error {s : State} {op : Op} (h : ∃ e, step s op = .error e) :
    exec s op = s := by
  obtain ⟨e, he⟩ := h
  simp [exec, he]

theorem succeeds_eq_false_of_error {s : State} {op : Op} (h : ∃ e, step s op = .error e) :
    succeeds s op = false := by
  obtain ⟨e, he⟩ := h
  simp [succeeds, he]

/-- A call record that has been settled: it exists and is both completed and
paid.  This is the post-state of a successful `completeCall` on the record. -/
def settled (s : State) (callId : Nat) : Prop :=
  (getCall s callId).client ≠ 0 ∧ (getCall s callId).isCompleted = true ∧
    (getCall s callId).isPaid = true

theorem getCall_exec_of_ne (s : State) (op : Op) (id' : Nat) (h : id' ≠ op.targetId) :
    getCall (exec s op) id' = getCall s id' := by
  cases hstep : step s op with
  | error e => simp [exec, hstep]
  | ok s' =>
      simp only [exec, hstep]
      cases op with
      | create sender value callId developer duration now =>
          simp only [step] at hstep
          obtain ⟨-, -, -, -, -, h6⟩ := createCall_ok_inv hstep
          subst h6
          rw [getCall_setEntry]
          simp only [Op.targetId] at h
          simp [h]
      | start sender callId now =>
          simp only [step] at hstep
          obtain ⟨-, -, -, h4⟩ := startCall_ok_inv hstep
          subst h4
          rw [getCall_setEntry]
          simp only [Op.targetId] at h
          simp [h]
      | complete sender callId now transferOk =>
          simp only [step] at hstep
          obtain ⟨-, -, -, -, -, -, -, h8⟩ := completeCall_ok_inv hstep
          subst h8
          rw [getCall_setEntry]
          simp only [Op.targetId] at h
          simp [h]

theorem settled_exec (s : State) (op : Op) (callId : Nat) (h : settled s callId) :
    settled (exec s op) callId := by
  by_cases hid : callId = op.targetId
  · cases op with
    | create sender value id developer duration now =>
        simp only [Op.targetId] at hid
        subst hid
        rw [exec_eq_of_error (show ∃ e,
          step s (Op.create sender value callId developer duration now) = .error e from
          createCall_error_of_paid sender value callId developer duration now h.1 h.2.2)]
        exact h
    | start sender id now =>
        simp only [Op.targetId] at hid
        subst hid
        rw [exec_eq_of_error (show ∃ e, step s (Op.start sender callId now) = .error e from
          startCall_error_of_completed sender callId now h.2.1)]
        exact h
    | complete sender id now transferOk =>
        simp only [Op.targetId] at hid
        subst hid
        rw [exec_eq_of_error (show ∃ e,
          step s (Op.complete sender callId now transferOk) = .error e from
          completeCall_error_of_completed sender callId now transferOk h.2.1)]
        exact h
  · unfold settled
    rw [getCall_exec_of_ne s op callId hid]
    exact h

theorem settled_of_complete_ok {s : State} {sender callId now : Nat} {transferOk : Bool}
    {s' : State} (h : completeCall s sender callId now transferOk = .ok s') :
    settled s' callId := by
  obtain ⟨h1, -, -, -, -, -, -, h8⟩ := completeCall_ok_inv h
  subst h8
  simp [settled, getCall_setEntry]
  exact h1

theorem countPayouts_eq_zero_of_settled (ops : List Op) :
    ∀ s callId, settled s callId → countPayouts s ops callId = 0 := by
  induction ops with
  | nil => intro s callId _; rfl
  | cons op rest ih =>
      intro s callId h
      have hrest : countPayouts (exec s op) rest callId = 0 :=
        ih (exec s op) callId (settled_exec s op callId h)
      rw [countPayouts, hrest]
      by_cases hc : isCompleteOn op callId = true
      · cases op with
        | create sender value id developer duration now => simp [isCompleteOn] at hc
        | start sender id now => simp [isCompleteOn] at hc
        | complete sender id now transferOk =>
            simp only [isCompleteOn, beq_iff_eq] at hc
            have hfail : succeeds s (Op.complete sender id now transferOk) = false := by
              refine succeeds_eq_false_of_error (show ∃ e,
                step s (Op.complete sender id now transferOk) = .error e from ?_)
              rw [hc]
              exact completeCall_error_of_completed sender callId now transferOk h.2.1
            simp [hfail]
      · simp [hc]

theorem countPayouts_le_one (ops : List Op) :
    ∀ (s : State) (callId : Nat), countPayouts s ops callId ≤ 1 := by
  induction ops with
  | nil => intro s callId; simp [countPayouts]
  | cons op rest ih =>
      intro s callId
      by_cases hc : (isCompleteOn op callId && succeeds s op) = true
      · have hsettled : settled (exec s op) callId := by
          rw [Bool.and_eq_true] at hc
          cases op with
          | create sender value id developer duration now => simp [isCompleteOn] at hc
          | start sender id now => simp [isCompleteOn] at hc
          | complete sender id now transferOk =>
              obtain ⟨hc1, hc2⟩ := hc
              simp only [isCompleteOn, beq_iff_eq] at hc1
              unfold succeeds at hc2
              cases hstep : step s (Op.complete sender id now transferOk) with
              | error e => rw [hstep] at hc2; simp at hc2
              | ok s' =>
                  simp only [exec, hstep]
                  simp only [step] at hstep
                  rw [← hc1]
                  exact settled_of_complete_ok hstep
        rw [countPayouts, if_pos hc,
          countPayouts_eq_zero_of_settled rest (exec s op) callId hsettled]
      · rw [countPayouts, if_neg hc]
        simpa using ih (exec s op) callId

/-- The key ledger invariant behind claim C10: every record (including the
default all-zero record of absent entries) has `isCompleted = isPaid`. -/
def CompletedIffPaid (s : State) : Prop :=
  ∀ callId, (getCall s callId).isCompleted = (getCall s callId).isPaid

theorem completedIffPaid_init : CompletedIffPaid initState := by
  intro callId
  rfl

theorem completedIffPaid_exec {s : State} (op : Op) (h : CompletedIffPaid s) :
    CompletedIffPaid (exec s op) := by
  intro callId
  by_cases hid : callId = op.targetId
  · cases hstep : step s op with
    | error e => simp only [exec, hstep]; exact h callId
    | ok s' =>
        simp only [exec, hstep]
        cases op with
        | create sender value id developer duration now =>
            simp only [Op.targetId] at hid
            subst hid
            simp only [step] at hstep
            obtain ⟨-, -, -, -, -, h6⟩ := createCall_ok_inv hstep
            subst h6
            rw [getCall_setEntry]
            simp
        | start sender id now =>
            simp only [Op.targetId] at hid
            subst hid
            simp only [step] at hstep
            obtain ⟨-, -, -, h4⟩ := startCall_ok_inv hstep
            subst h4
            rw [getCall_setEntry]
            simpa using h callId
        | complete sender id now transferOk =>
            simp only [Op.targetId] at hid
            subst hid
            simp only [step] at hstep
            obtain ⟨-, -, -, -, -, -, -, h8⟩ := completeCall_ok_inv hstep
            subst h8
            rw [getCall_setEntry]
            simp
  · rw [getCall_exec_of_ne s op callId hid]
    exact h callId

theorem completedIffPaid_run (ops : List Op) :
    ∀ s, CompletedIffPaid s → CompletedIffPaid (run s ops) := by
  induction ops with
  | nil => intro s h; exact h
  | cons op rest ih =>
      intro s h
      exact ih (exec s op) (completedIffPaid_exec op h)

/-- C4: `createCall` with attached value 0, duration 0, the null developer
address, or `sender = developer` fails with `InvalidAmount`,
`InvalidDuration`, `InvalidDeveloper` or `SelfBookingNotAllowed`
respectively (the checks fire in that order), and performs no state
mutation: the reverted transaction leaves the `calls` mapping, the balance
and the event log exactly as they were. -/
theorem createCall_rejects_invalid_inputs :
    ∀ (s : State) (sender value callId developer duration now : Nat),
      (value = 0 →
        createCall s sender value callId developer duration now = .error .invalidAmount) ∧
      (value ≠ 0 → duration = 0 →
        createCall s sender value callId developer duration now = .error .invalidDuration) ∧
      (value ≠ 0 → duration ≠ 0 → developer = 0 →
        createCall s sender value callId developer duration now = .error .invalidDeveloper) ∧
      (value ≠ 0 → duration ≠ 0 → developer ≠ 0 → sender = developer →
        createCall s sender value callId developer duration now = .error .selfBookingNotAllowed) ∧
      ((value = 0 ∨ duration = 0 ∨ developer = 0 ∨ sender = developer) →
        exec s (Op.create sender value callId developer duration now) = s) := by
  intro s sender value callId developer duration now
  refine ⟨?_, ?_, ?_, ?_, ?_⟩
  · intro h1
    unfold createCall
    rw [if_pos h1]
  · intro h1 h2
    unfold createCall
    rw [if_neg h1, if_pos h2]
  · intro h1 h2 h3
    unfold createCall
    rw [if_neg h1, if_neg h2, if_pos h3]
  · intro h1 h2 h3 h4
    unfold createCall
    rw [if_neg h1, if_neg h2, if_neg h3, if_pos h4]
  · intro h
    apply exec_eq_of_error
    show ∃ e, createCall s sender value callId developer duration now = .error e
    unfold createCall
    split_ifs with h1 h2 h3 h4 h5
    · exact ⟨_, rfl⟩
    · exact ⟨_, rfl⟩
    · exact ⟨_, rfl⟩
    · exact ⟨_, rfl⟩
    · exact ⟨_, rfl⟩
    · rcases h with h | h | h | h
      · exact absurd h h1
      · exact absurd h h2
      · exact absurd h h3
      · exact absurd h h4

/-- Witness for C4 at concrete inputs. -/
theorem createCall_rejects_invalid_inputs_witness :
    createCall initState 1 0 7 2 10 100 = .error .invalidAmount ∧
    createCall initState 1 5 7 2 0 100 = .error .invalidDuration ∧
    createCall initState 1 5 7 0 10 100 = .error .invalidDeveloper ∧
    createCall initState 2 5 7 2 10 100 = .error .selfBookingNotAllowed ∧
    exec initState (Op.create 1 0 7 2 10 100) = initState :=
  ⟨(createCall_rejects_invalid_inputs initState 1 0 7 2 10 100).1 rfl,
   (createCall_rejects_invalid_inputs initState 1 5 7 2 0 100).2.1 (by decide) rfl,
   (createCall_rejects_invalid_inputs initState 1 5 7 0 10 100).2.2.1 (by decide) (by decide) rfl,
   (createCall_rejects_invalid_inputs initState 2 5 7 2 10 100).2.2.2.1
     (by decide) (by decide) (by decide) rfl,
   (createCall_rejects_invalid_inputs initState 1 0 7 2 10 100).2.2.2.2 (Or.inl rfl)⟩

/-- C6: `startCall` fails with `CallNotFound` when no record exists, with
`CallAlreadyStarted` when the record is active, and with
`CallAlreadyCompleted` when it is (inactive but) completed; its result is
independent of the sender, and on the remaining records it succeeds, setting
`isActive := true` and `startTime := now` while leaving `client`,
`developer`, `amount`, `duration`, `isCompleted` and `isPaid` — and every
other record, and the balance — unchanged, emitting only `CallStarted`. -/
theorem startCall_lifecycle :
    ∀ (s : State) (sender callId now : Nat),
      ((getCall s callId).client = 0 →
        startCall s sender callId now = .error .callNotFound) ∧
      ((getCall s callId).client ≠ 0 → (getCall s callId).isActive = true →
        startCall s sender callId now = .error .callAlreadyStarted) ∧
      ((getCall s callId).client ≠ 0 → (getCall s callId).isActive = false →
        (getCall s callId).isCompleted = true →
        startCall s sender callId now = .error .callAlreadyCompleted) ∧
      (∀ sender', startCall s sender callId now = startCall s sender' callId now) ∧
      ((getCall s callId).client ≠ 0 → (getCall s callId).isActive = false →
        (getCall s callId).isCompleted = false →
        ∃ s', startCall s sender callId now = .ok s' ∧
          getCall s' callId = Call.mk (getCall s callId).client
            (getCall s callId).developer (getCall s callId).amount
            (getCall s callId).duration now true
            (getCall s callId).isCompleted (getCall s callId).isPaid ∧
          s'.balance = s.balance ∧
          s'.events = s.events ++ [.callStarted callId now] ∧
          (∀ id', id' ≠ callId → getCall s' id' = getCall s id')) := by
  intro s sender callId now
  refine ⟨?_, ?_, ?_, ?_, ?_⟩
  · intro h1
    unfold startCall
    rw [if_pos h1]
  · intro h1 h2
    unfold startCall
    rw [if_neg h1, if_pos h2]
  · intro h1 h2 h3
    unfold startCall
    rw [if_neg h1, if_neg (by simp [h2]), if_pos h3]
  · intro sender'
    rfl
  · intro h1 h2 h3
    unfold startCall
    rw [if_neg h1, if_neg (by simp [h2]), if_neg (by simp [h3])]
    refine ⟨_, rfl, ?_, rfl, rfl, ?_⟩
    · rw [getCall_setEntry]
      simp
    · intro id' hne
      rw [getCall_setEntry]
      simp [hne]

/-- Witness for C6 at concrete inputs. -/
theorem startCall_lifecycle_witness :
    startCall initState 1 7 100 = .error .callNotFound ∧
    (∃ s', startCall (run initState [Op.create 1 5 7 2 10 100]) 9 7 150 = .ok s' ∧
      getCall s' 7 = Call.mk 1 2 5 10 150 true false false ∧
      s'.balance = (run initState [Op.create 1 5 7 2 10 100]).balance ∧
      s'.events = (run initState [Op.create 1 5 7 2 10 100]).events ++
        [.callStarted 7 150] ∧
      (∀ id', id' ≠ 7 → getCall s' id' =
        getCall (run initState [Op.create 1 5 7 2 10 100]) id')) :=
  ⟨(startCall_lifecycle initState 1 7 100).1 rfl,
   (startCall_lifecycle (run initState [Op.create 1 5 7 2 10 100]) 9 7 150).2.2.2.2
     (by decide) rfl rfl⟩

/-- C3: `completeCall` is atomic with respect to transfer failure.  When the
low-level transfer to the developer fails, `completeCall` never returns
success; the transaction reverts, leaving the record's `isCompleted`,
`isPaid` and `amount` fields, the whole `calls` mapping, the balance and the
event log exactly as before (`exec` returns the pre-state); and when every
precondition holds (record exists, caller is the stored developer, not
completed, not paid, nonzero amount, sufficient balance) the revert reason
is precisely `PaymentFailed`.  The intra-transaction ordering (flags flipped
and amount zeroed before the transfer) is modelled atomically; its
observable content is that a failed transfer undoes those flips. -/
theorem completeCall_transfer_failure_atomic :
    ∀ (s : State) (sender callId now : Nat),
      (∀ s', completeCall s sender callId now false ≠ .ok s') ∧
      exec s (Op.complete sender callId now false) = s ∧
      ((getCall s callId).client ≠ 0 → (getCall s callId).developer = sender →
        (getCall s callId).isCompleted = false → (getCall s callId).isPaid = false →
        (getCall s callId).amount ≠ 0 → (getCall s callId).amount ≤ s.balance →
        completeCall s sender callId now false = .error .paymentFailed) := by
  intro s sender callId now
  have hno : ∀ s', completeCall s sender callId now false ≠ .ok s' := by
    intro s' h
    obtain ⟨-, -, -, -, -, -, h7, -⟩ := completeCall_ok_inv h
    exact Bool.false_ne_true h7
  refine ⟨hno, ?_, ?_⟩
  · cases hstep : step s (Op.complete sender callId now false) with
    | ok s' =>
        exact absurd (show completeCall s sender callId now false = .ok s' from hstep)
          (hno s')
    | error e => simp [exec, hstep]
  · intro h1 h2 h3 h4 h5 h6
    unfold completeCall
    rw [if_neg h1, if_neg (fun hn => hn h2), if_neg (by simp [h3]),
      if_neg (by simp [h4]), if_neg h5, if_neg (not_lt.mpr h6),
      if_neg (by simp)]

/-- Witness for C3 at concrete inputs: on a created (funded, unpaid) record
a failed transfer yields exactly `PaymentFailed` and leaves the state
untouched. -/
theorem completeCall_transfer_failure_atomic_witness :
    completeCall (run initState [Op.create 1 5 7 2 10 100]) 2 7 200 false ≠
      .ok (run initState [Op.create 1 5 7 2 10 100]) ∧
    exec (run initState [Op.create 1 5 7 2 10 100]) (Op.complete 2 7 200 false) =
      run initState [Op.create 1 5 7 2 10 100] ∧
    completeCall (run initState [Op.create 1 5 7 2 10 100]) 2 7 200 false =
      .error .paymentFailed :=
  ⟨(completeCall_transfer_failure_atomic (run initState [Op.create 1 5 7 2 10 100])
      2 7 200).1 _,
   (completeCall_transfer_failure_atomic (run initState [Op.create 1 5 7 2 10 100])
      2 7 200).2.1,
   (completeCall_transfer_failure_atomic (run initState [Op.create 1 5 7 2 10 100])
      2 7 200).2.2 (by decide) rfl rfl rfl (by decide) (by decide)⟩

/-- C2 counterexample: the claim states that recreation under an existing id
is permitted exactly when the prior record satisfies
`isCompleted && isPaid`.  On the code the guard is the opposite: after a
call has been created, started and completed (so the record is completed AND
paid), `createCall` with the same id and otherwise valid inputs reverts with
`CallAlreadyExists` — whereas the claim predicts this very recreation to be
the permitted one. -/
theorem createCall_recreation_claim_counterexample :
    (getCall (run initState
      [Op.create 1 5 7 2 10 100, Op.start 1 7 150, Op.complete 2 7 200 true]) 7).isCompleted
        = true ∧
    (getCall (run initState
      [Op.create 1 5 7 2 10 100, Op.start 1 7 150, Op.complete 2 7 200 true]) 7).isPaid
        = true ∧
    createCall (run initState
      [Op.create 1 5 7 2 10 100, Op.start 1 7 150, Op.complete 2 7 200 true])
      1 5 7 2 10 300 = .error .callAlreadyExists :=
  ⟨rfl, rfl, rfl⟩

/-- C2 (amended): for every callId at which a record already exists,
`createCall` (with otherwise valid inputs) fails with `CallAlreadyExists`
unless the existing record satisfies `isCompleted && !isPaid`; recreation
under the same id is permitted exactly when the prior record is completed
but not yet paid. -/
theorem createCall_existing_guard :
    ∀ (s : State) (sender value callId developer duration now : Nat),
      value ≠ 0 → duration ≠ 0 → developer ≠ 0 → sender ≠ developer →
      (getCall s callId).client ≠ 0 →
      ((((getCall s callId).isCompleted = true ∧ (getCall s callId).isPaid = false) →
        ∃ s', createCall s sender value callId developer duration now = .ok s') ∧
       (¬((getCall s callId).isCompleted = true ∧ (getCall s callId).isPaid = false) →
        createCall s sender value callId developer duration now =
          .error .callAlreadyExists)) := by
  intro s sender value callId developer duration now hv hd hdev hsd hc
  unfold createCall
  rw [if_neg hv, if_neg hd, if_neg hdev, if_neg hsd]
  by_cases hguard : (getCall s callId).client ≠ 0 ∧
      ((getCall s callId).isCompleted = false ∨ (getCall s callId).isPaid = true)
  · rw [if_pos hguard]
    refine ⟨?_, fun _ => rfl⟩
    intro hcp
    rcases hguard.2 with h | h
    · rw [hcp.1] at h
      exact absurd h (by simp)
    · rw [hcp.2] at h
      exact absurd h (by simp)
  · rw [if_neg hguard]
    refine ⟨fun _ => ⟨_, rfl⟩, ?_⟩
    intro hn
    exfalso
    apply hn
    constructor
    · cases hcompleted : (getCall s callId).isCompleted with
      | true => rfl
      | false => exact absurd ⟨hc, Or.inl hcompleted⟩ hguard
    · cases hpaid : (getCall s callId).isPaid with
      | false => rfl
      | true => exact absurd ⟨hc, Or.inr hpaid⟩ hguard

/-- Witness for the amended C2 at concrete inputs: a completed-but-unpaid
record can be recreated, and a completed-and-paid record cannot. -/
theorem createCall_existing_guard_witness :
    (∃ s', createCall
      (State.mk [(7, Call.mk 1 2 5 10 0 false true false)] 5 []) 3 5 7 2 10 300 = .ok s') ∧
    createCall (State.mk [(7, Call.mk 1 2 0 10 0 true true true)] 0 []) 3 5 7 2 10 300 =
      .error .callAlreadyExists :=
  ⟨(createCall_existing_guard (State.mk [(7, Call.mk 1 2 5 10 0 false true false)] 5 [])
      3 5 7 2 10 300 (by decide) (by decide) (by decide) (by decide) (by decide)).1
      ⟨rfl, rfl⟩,
   (createCall_existing_guard (State.mk [(7, Call.mk 1 2 0 10 0 true true true)] 0 [])
      3 5 7 2 10 300 (by decide) (by decide) (by decide) (by decide) (by decide)).2
      (by decide)⟩

theorem createCall_error_callAlreadyExists_aux :
    ∀ (s : State) (sender value callId developer duration now : Nat),
      value ≠ 0 → duration ≠ 0 → developer ≠ 0 → sender ≠ developer →
      (getCall s callId).client ≠ 0 →
      ((getCall s callId).isCompleted = false ∨ (getCall s callId).isPaid = true) →
      createCall s sender value callId developer duration now =
        .error .callAlreadyExists := by
  intro s sender value callId developer duration now hv hd hdev hsd hc hg
  unfold createCall
  rw [if_neg hv, if_neg hd, if_neg hdev, if_neg hsd, if_pos ⟨hc, hg⟩]

theorem completeCall_error_of_paid {s : State} (sender callId now : Nat)
    (transferOk : Bool) (hp : (getCall s callId).isPaid = true) :
    ∃ e, completeCall s sender callId now transferOk = .error e := by
  unfold completeCall
  split_ifs
  all_goals exact ⟨_, rfl⟩

/-- C10: in every ledger state reachable from the deployed state by any
sequence of `createCall`/`startCall`/`completeCall` transactions, every
record satisfies `isCompleted = isPaid`.  Consequently the recreation
branch of `createCall` — which requires an existing record with
`isCompleted && !isPaid` — is never taken: on any reachable state,
`createCall` on an id whose record exists reverts with `CallAlreadyExists`
even when all its input validations pass, so no call id can ever be
successfully reused. -/
theorem reachable_completed_iff_paid_no_reuse :
    ∀ (ops : List Op) (callId : Nat),
      (getCall (run initState ops) callId).isCompleted =
        (getCall (run initState ops) callId).isPaid ∧
      (∀ sender value developer duration now,
        value ≠ 0 → duration ≠ 0 → developer ≠ 0 → sender ≠ developer →
        (getCall (run initState ops) callId).client ≠ 0 →
        createCall (run initState ops) sender value callId developer duration now =
          .error .callAlreadyExists) := by
  intro ops callId
  have hinv := completedIffPaid_run ops initState completedIffPaid_init
  refine ⟨hinv callId, ?_⟩
  intro sender value developer duration now hv hd hdev hsd hc
  apply createCall_error_callAlreadyExists_aux _ _ _ _ _ _ _ hv hd hdev hsd hc
  cases hpaid : (getCall (run initState ops) callId).isPaid with
  | true => exact Or.inr rfl
  | false =>
      refine Or.inl ?_
      rw [hinv callId, hpaid]

/-- Witness for C10 at concrete inputs: after a create, the record of id 7
has `isCompleted = isPaid` and recreating id 7 with valid inputs reverts
with `CallAlreadyExists` (the Scenario-E shape of the spec). -/
theorem reachable_completed_iff_paid_no_reuse_witness :
    (getCall (run initState [Op.create 1 5 7 2 10 100]) 7).isCompleted =
      (getCall (run initState [Op.create 1 5 7 2 10 100]) 7).isPaid ∧
    createCall (run initState [Op.create 1 5 7 2 10 100]) 3 5 7 2 10 200 =
      .error .callAlreadyExists :=
  ⟨(reachable_completed_iff_paid_no_reuse [Op.create 1 5 7 2 10 100] 7).1,
   (reachable_completed_iff_paid_no_reuse [Op.create 1 5 7 2 10 100] 7).2
     3 5 2 10 200 (by decide) (by decide) (by decide) (by decide) (by decide)⟩

/-- C1: `completeCall` is payable at most once per call id.  (i) Along any
transaction sequence from any state, at most one `completeCall` on a given
id succeeds, so the balance decreases by the escrowed amount of that call at
most once.  (ii) A successful `completeCall` marks the record completed and
paid, zeroes the stored amount, decreases the contract balance by exactly
the escrowed amount, and emits a `PaymentReleased` event carrying the stored
developer and exactly that amount.  (iii) Once a record is completed or paid
— as after the first success — every further `completeCall` on that id
reverts (with `CallAlreadyCompleted` or the payment-already-released revert,
or `Unauthorized`/`CallNotFound` for foreign callers). -/
theorem completeCall_payable_at_most_once :
    (∀ (s : State) (ops : List Op) (callId : Nat), countPayouts s ops callId ≤ 1) ∧
    (∀ (s : State) (sender callId now : Nat) (transferOk : Bool) (s' : State),
      completeCall s sender callId now transferOk = .ok s' →
      (getCall s' callId).isCompleted = true ∧ (getCall s' callId).isPaid = true ∧
      (getCall s' callId).amount = 0 ∧
      s'.balance + (getCall s callId).amount = s.balance ∧
      s'.events = s.events ++
        [.callCompleted callId now,
         .paymentReleased callId (getCall s callId).developer
           (getCall s callId).amount]) ∧
    (∀ (s : State) (sender callId now : Nat) (transferOk : Bool),
      (getCall s callId).isCompleted = true ∨ (getCall s callId).isPaid = true →
      ∃ e, completeCall s sender callId now transferOk = .error e) := by
  refine ⟨fun s ops callId => countPayouts_le_one ops s callId, ?_, ?_⟩
  · intro s sender callId now transferOk s' h
    obtain ⟨h1, h2, h3, h4, h5, h6, h7, h8⟩ := completeCall_ok_inv h
    subst h8
    refine ⟨?_, ?_, ?_, ?_, rfl⟩
    · rw [getCall_setEntry]
      simp
    · rw [getCall_setEntry]
      simp
    · rw [getCall_setEntry]
      simp
    · show s.balance - (getCall s callId).amount + (getCall s callId).amount = s.balance
      omega
  · intro s sender callId now transferOk h
    rcases h with h | h
    · exact completeCall_error_of_completed sender callId now transferOk h
    · exact completeCall_error_of_paid sender callId now transferOk h

/-- Witness for C1 at concrete inputs: two successive `completeCall`
transactions on the same created-and-started call pay out once; the first
success settles the record and moves exactly the escrowed amount; the
second reverts. -/
theorem completeCall_payable_at_most_once_witness :
    countPayouts (run initState [Op.create 1 5 7 2 10 100, Op.start 1 7 150])
      [Op.complete 2 7 200 true, Op.complete 2 7 300 true] 7 ≤ 1 ∧
    ((getCall (exec (run initState [Op.create 1 5 7 2 10 100, Op.start 1 7 150])
        (Op.complete 2 7 200 true)) 7).isCompleted = true ∧
      (getCall (exec (run initState [Op.create 1 5 7 2 10 100, Op.start 1 7 150])
        (Op.complete 2 7 200 true)) 7).isPaid = true ∧
      (getCall (exec (run initState [Op.create 1 5 7 2 10 100, Op.start 1 7 150])
        (Op.complete 2 7 200 true)) 7).amount = 0 ∧
      (exec (run initState [Op.create 1 5 7 2 10 100, Op.start 1 7 150])
        (Op.complete 2 7 200 true)).balance +
        (getCall (run initState [Op.create 1 5 7 2 10 100, Op.start 1 7 150]) 7).amount =
        (run initState [Op.create 1 5 7 2 10 100, Op.start 1 7 150]).balance ∧
      (exec (run initState [Op.create 1 5 7 2 10 100, Op.start 1 7 150])
        (Op.complete 2 7 200 true)).events =
        (run initState [Op.create 1 5 7 2 10 100, Op.start 1 7 150]).events ++
        [.callCompleted 7 200,
         .paymentReleased 7
           (getCall (run initState [Op.create 1 5 7 2 10 100, Op.start 1 7 150]) 7).developer
           (getCall (run initState [Op.create 1 5 7 2 10 100, Op.start 1 7 150]) 7).amount]) ∧
    (∃ e, completeCall (exec (run initState [Op.create 1 5 7 2 10 100, Op.start 1 7 150])
      (Op.complete 2 7 200 true)) 2 7 300 true = .error e) :=
  ⟨completeCall_payable_at_most_once.1 _ _ _,
   completeCall_payable_at_most_once.2.1
     (run initState [Op.create 1 5 7 2 10 100, Op.start 1 7 150]) 2 7 200 true
     (exec (run initState [Op.create 1 5 7 2 10 100, Op.start 1 7 150])
       (Op.complete 2 7 200 true)) rfl,
   completeCall_payable_at_most_once.2.2
     (exec (run initState [Op.create 1 5 7 2 10 100, Op.start 1 7 150])
       (Op.complete 2 7 200 true)) 2 7 300 true (Or.inl rfl)⟩

end Escrow

namespace Web3Service

/-- C5 evaluated at its failing inputs.  The claim (and the spec) say the
confirmation loop treats a failed-status receipt as a fatal error and a
successful receipt with `isPaid` still false as a confirmation failure,
rejecting instead of returning the transaction hash.  On the code, both
`throw`s are swallowed by the loop's own `catch` (web3Service.ts line 627),
`receipt` is already non-null, the loop exits, and the function returns the
transaction hash as success.  Conjuncts: (i) a receipt with failure status
on the first poll still returns the hash; (ii) a successful receipt with
`isPaid` read back as false still returns the hash; (iii) the genuine
success path returns the hash; (iv) only a never-found receipt makes the
operation reject. -/
theorem completeCallConfirm_swallows_failures :
    completeCallConfirm (fun n => if n = 0 then some (Receipt.mk false) else none)
      (fun _ => true) = .returnedHash ∧
    completeCallConfirm (fun n => if n = 0 then some (Receipt.mk true) else none)
      (fun _ => false) = .returnedHash ∧
    completeCallConfirm (fun n => if n = 0 then some (Receipt.mk true) else none)
      (fun _ => true) = .returnedHash ∧
    completeCallConfirm (fun _ => none) (fun _ => true) = .notConfirmedError :=
  ⟨rfl, rfl, rfl, rfl⟩

end Web3Service

namespace Coordinator

/-- C7 evaluated at its failing trigger sequence.  The claim says repeated
session-end triggers — including the developer-side `requiresPayment`
subscription firing, in any interleaving or repetition — result in exactly
one completion-transaction submission, duplicates while an end is in flight
being no-ops.  On the code, when the client ends the call
(`clientEndWrite`), the developer-side listener fires once per snapshot
delivery; `handleCallEnd` on the client performs two document writes, so two
deliveries are produced, and the listener's guard
(`requiresPayment && !paymentReleased && !isCallEnding`) still passes on the
second delivery because `processPayment` sets no in-flight marker and
`paymentReleased` is only written after the transaction resolves: two
`completeCall` submissions go out (first conjunct).  The `handleCallEnd`
path itself is guarded by `isCallEnding` (second and third conjuncts), so
only the subscription path duplicates. -/
theorem sessionEnd_duplicate_submission :
    (runTriggers initSession
      [.clientEndWrite, .snapshotFire, .snapshotFire]).submissions = 2 ∧
    (runTriggers initSession [.devEndCall, .devEndCall]).submissions = 1 ∧
    (runTriggers initSession [.devEndCall, .snapshotFire]).submissions = 1 :=
  ⟨rfl, rfl, rfl⟩

/-- C8 counterexample: the claim says the countdown's elapsed time is always
measured against a server-assigned timestamp obtained through the document
store, never against the local client clock.  The `initializeCall` timer
path computes elapsed from `new Date().getTime()`: with the session data
fixed (active status, recorded start time, duration 10 minutes) and only
the local clock varying, the computed countdown differs — it is a function
of the local clock. -/
theorem countdown_uses_local_clock_counterexample :
    initCallTimer "active" (some 0) 10 false 60000 = .startTimer 540 ∧
    initCallTimer "active" (some 0) 10 false 120000 = .startTimer 480 ∧
    initCallTimer "active" (some 0) 10 false 60000 ≠
      initCallTimer "active" (some 0) 10 false 120000 ∧
    fetchSnapshotTimer (some 0) 10 false (some 60000) 0 = .startTimer 540 := by
  refine ⟨?_, ?_, ?_, ?_⟩ <;> decide

/-- C8 (amended): the `fetchCallData` snapshot path computes the countdown
as `duration*60 − elapsed` with elapsed measured against the server
timestamp obtained by round-tripping through the document store — its
result is independent of the local clock whenever that round trip succeeds
— while the `initializeCall` paths measure elapsed against the local client
clock with the same formula. -/
theorem countdown_time_sources :
    ∀ (st duration : Int) (ci : Bool) (serverNow localNow localNow' : Int),
      fetchSnapshotTimer (some st) duration ci (some serverNow) localNow =
        fetchSnapshotTimer (some st) duration ci (some serverNow) localNow' ∧
      (ci = false →
        fetchSnapshotTimer (some st) duration ci (some serverNow) localNow =
          (if 0 < duration * 60 - (serverNow - st).fdiv 1000 then
            .startTimer (duration * 60 - (serverNow - st).fdiv 1000)
           else .endCall)) ∧
      (ci = false → duration ≠ 0 →
        initCallTimer "active" (some st) duration ci localNow =
          (if 0 < duration * 60 - (localNow - st).fdiv 1000 then
            .startTimer (duration * 60 - (localNow - st).fdiv 1000)
           else .endCall)) := by
  intro st duration ci serverNow localNow localNow'
  refine ⟨rfl, ?_, ?_⟩
  · intro h
    subst h
    rfl
  · intro h hd
    subst h
    simp [initCallTimer, hd]

/-- Witness for the amended C8 at concrete inputs. -/
theorem countdown_time_sources_witness :
    fetchSnapshotTimer (some 0) 10 false (some 5000) 999 =
      fetchSnapshotTimer (some 0) 10 false (some 5000) 123456 ∧
    fetchSnapshotTimer (some 0) 10 false (some 5000) 999 =
      (if 0 < (10 : Int) * 60 - ((5000 : Int) - 0).fdiv 1000 then
        TimerAction.startTimer (10 * 60 - ((5000 : Int) - 0).fdiv 1000)
       else .endCall) ∧
    initCallTimer "active" (some 0) 10 false 999 =
      (if 0 < (10 : Int) * 60 - ((999 : Int) - 0).fdiv 1000 then
        TimerAction.startTimer (10 * 60 - ((999 : Int) - 0).fdiv 1000)
       else .endCall) :=
  ⟨(countdown_time_sources 0 10 false 5000 999 123456).1,
   (countdown_time_sources 0 10 false 5000 999 123456).2.1 rfl,
   (countdown_time_sources 0 10 false 5000 999 123456).2.2 rfl (by decide)⟩

end Coordinator
